import Mathlib

/-!
Shallow embedding of the `vanilla-extract` CSS builder utilities
(calc-expression builder, transform builder, transition and animation
builders) together with theorems checking the natural-language
specification against the code.

JavaScript *number inputs* are modelled as integers (`Int`): every
concrete number value appearing in the development is integral, and no
arithmetic on the numeric values is ever performed by the code under
verification — numbers only flow into rendered strings.  The result of
the JavaScript `Number(string)` conversion is modelled exactly as a
decimal value `m·10^e`, which is precise on every string whose decimal
value round-trips through an IEEE double (at most about fifteen
significant digits); beyond that fragment JavaScript's float rounding
could diverge from the exact-decimal model, and no such string occurs in
this development.
-/

namespace css

/-- Rendering of an integer exactly as JavaScript string interpolation
renders the corresponding integral number value. -/
def intToString (n : Int) : String := toString n

/-- The result of the JavaScript `Number(...)` conversion: a finite value
is the exact decimal `m·10^e` (exact for every string whose decimal value
round-trips through an IEEE double), and the two infinities.
`Option JSNum` stands for a possibly-NaN result (`none` = NaN). -/
inductive JSNum where
  | finite (m : Int) (e : Int)
  | posInf
  | negInf
deriving DecidableEq, Repr

/-- Rendering of a `JSNum` as JavaScript string interpolation does,
following the `Number::toString` algorithm of the ECMAScript
specification: an integral layout when the decimal exponent `n` satisfies
`k ≤ n ≤ 21` (`k` = number of significant digits), a decimal point
inserted inside or in front of the digits for `-6 < n ≤ 21`, and
exponential notation (`1e+21`, `5e-7`) otherwise. -/
def JSNum.render : JSNum → String
  | .posInf => "Infinity"
  | .negInf => "-Infinity"
  | .finite m e =>
      if m = 0 then "0"
      else
        let sign : List Char := if m < 0 then ['-'] else []
        let ds : List Char := (Nat.repr m.natAbs).data
        let k : Int := (ds.length : Int)
        let n : Int := k + e
        String.mk (sign ++ (
          if k ≤ n ∧ n ≤ 21 then ds ++ List.replicate (n - k).toNat '0'
          else if 0 < n ∧ n ≤ 21 then
            ds.take n.toNat ++ '.' :: ds.drop n.toNat
          else if -6 < n ∧ n ≤ 0 then
            '0' :: '.' :: List.replicate (-n).toNat '0' ++ ds
          else
            ds.take 1 ++ (if 1 < ds.length then '.' :: ds.drop 1 else [])
              ++ 'e' :: (if n - 1 < 0 then ['-'] else ['+'])
              ++ (Nat.repr (n - 1).natAbs).data))

/-- Natural number denoted by a list of decimal digit characters. -/
def digitsToNat (cs : List Char) : Nat :=
  cs.foldl (fun acc c => acc * 10 + (c.toNat - 48)) 0

/-- Natural number denoted by a list of digit characters in base `b`,
with `f` giving each character's digit value. -/
def digitsToNatBase (b : Nat) (f : Char → Nat) (cs : List Char) : Nat :=
  cs.foldl (fun acc c => acc * b + f c) 0

/-- The whitespace characters stripped by the JavaScript
string-to-number conversion (ECMAScript `StrWhiteSpaceChar`): ASCII
whitespace, NBSP, BOM and the two Unicode line separators.  The remaining
Unicode `Space_Separator` characters are omitted; none occurs in this
development. -/
def jsWhitespace (c : Char) : Bool :=
  c == ' ' || c == '\t' || c == '\n' || c == '\r' || c.val == 0x0b ||
  c.val == 0x0c || c.val == 0xa0 || c.val == 0xfeff || c.val == 0x2028 ||
  c.val == 0x2029

/-- Octal digit test. -/
def isOctalDigit (c : Char) : Bool := '0' ≤ c && c ≤ '7'

/-- Binary digit test. -/
def isBinaryDigit (c : Char) : Bool := c == '0' || c == '1'

/-- Hexadecimal digit test. -/
def isHexDigitChar (c : Char) : Bool :=
  c.isDigit || ('a' ≤ c && c ≤ 'f') || ('A' ≤ c && c ≤ 'F')

/-- Value of a hexadecimal digit character. -/
def hexVal (c : Char) : Nat :=
  if c.isDigit then c.toNat - 48
  else if 'a' ≤ c && c ≤ 'f' then c.toNat - 87
  else c.toNat - 55

/-- Value of a decimal digit character. -/
def digitVal (c : Char) : Nat := c.toNat - 48

/-- Strip trailing zero digits from a mantissa digit list, returning the
stripped list and the number of zeros removed. -/
def stripTrailingZeros (cs : List Char) : List Char × Nat :=
  let r := (cs.reverse.dropWhile (fun c => c == '0')).reverse
  (r, cs.length - r.length)

/-- Build a finite `JSNum` from a sign, mantissa digit list and decimal
exponent, normalising away trailing zero digits (so that the value
renders in JavaScript's canonical shortest-decimal form). -/
def mkFinite (neg : Bool) (mdigits : List Char) (e : Int) : JSNum :=
  let p := stripTrailingZeros mdigits
  let m := digitsToNat p.1
  if m = 0 then JSNum.finite 0 0
  else JSNum.finite (if neg then -(m : Int) else (m : Int)) (e + (p.2 : Int))

/-- Parse the optional exponent part of a decimal literal (the input is
what follows the mantissa; it must be empty or a complete well-formed
exponent). -/
def parseExponentPart (neg : Bool) (mdigits : List Char) (fracLen : Nat) :
    List Char → Option JSNum
  | [] => some (mkFinite neg mdigits (-(fracLen : Int)))
  | c :: rest =>
      if c == 'e' || c == 'E' then
        let p : Bool × List Char :=
          match rest with
          | '+' :: r => (false, r)
          | '-' :: r => (true, r)
          | r => (false, r)
        if p.2 ≠ [] ∧ p.2.all Char.isDigit then
          let ev : Int := (digitsToNat p.2 : Int)
          some (mkFinite neg mdigits
            ((if p.1 then -ev else ev) - (fracLen : Int)))
        else none
      else none

/-- Parse an unsigned decimal literal `digits [. digits] [e[±]digits]`
(either side of the decimal point may be empty, not both). -/
def parseUnsignedDecimal (neg : Bool) (cs : List Char) : Option JSNum :=
  let intPart := cs.takeWhile Char.isDigit
  let rest1 := cs.dropWhile Char.isDigit
  match rest1 with
  | '.' :: rest2 =>
      let fracPart := rest2.takeWhile Char.isDigit
      let rest3 := rest2.dropWhile Char.isDigit
      if intPart = [] ∧ fracPart = [] then none
      else parseExponentPart neg (intPart ++ fracPart) fracPart.length rest3
  | _ =>
      if intPart = [] then none
      else parseExponentPart neg intPart 0 rest1

/-- Parse an optionally signed decimal literal or infinity literal. -/
def parseSignedDecimal (cs : List Char) : Option JSNum :=
  let q : Bool × List Char :=
    match cs with
    | '+' :: rest => (false, rest)
    | '-' :: rest => (true, rest)
    | rest => (false, rest)
  if q.2 = "Infinity".data then
    some (if q.1 then JSNum.negInf else JSNum.posInf)
  else parseUnsignedDecimal q.1 q.2

/-- Models the JavaScript `Number(string)` conversion (ECMAScript
`StringNumericLiteral`): whitespace is trimmed, the empty string converts
to `0`, `0x`/`0o`/`0b` radix literals (unsigned) convert to integers, and
otherwise an optionally signed decimal literal with optional fraction and
exponent, or an infinity literal, is accepted; everything else is NaN
(`none`). -/
def jsNumber (s : String) : Option JSNum :=
  let cs :=
    ((s.data.dropWhile jsWhitespace).reverse.dropWhile jsWhitespace).reverse
  match cs with
  | [] => some (JSNum.finite 0 0)
  | '0' :: x :: rest =>
      if x == 'x' || x == 'X' then
        if rest ≠ [] ∧ rest.all isHexDigitChar then
          some (JSNum.finite (digitsToNatBase 16 hexVal rest : Nat) 0)
        else none
      else if x == 'o' || x == 'O' then
        if rest ≠ [] ∧ rest.all isOctalDigit then
          some (JSNum.finite (digitsToNatBase 8 digitVal rest : Nat) 0)
        else none
      else if x == 'b' || x == 'B' then
        if rest ≠ [] ∧ rest.all isBinaryDigit then
          some (JSNum.finite (digitsToNatBase 2 digitVal rest : Nat) 0)
        else none
      else parseSignedDecimal cs
  | _ => parseSignedDecimal cs

/-- JavaScript `Array.prototype.join(sep)`. -/
def joinSep (sep : String) : List String → String
  | [] => ""
  | x :: xs => xs.foldl (fun acc e => acc ++ sep ++ e) x

/-- The arithmetic operator of a `Calc` node
(`'+' | '-' | '*' | '/'` in the source). -/
inductive CalcOp where
  | plus
  | minus
  | times
  | divide
deriving DecidableEq, Repr

/-- The character the operator renders as. -/
def CalcOp.symbol : CalcOp → String
  | .plus => "+"
  | .minus => "-"
  | .times => "*"
  | .divide => "/"

/-- `Calc` from `packages/utils/src/functions/timing.ts`: the stored state
of an expression node — the operand strings (already coerced at
construction time), the optional operator, and the wrapping function name
(`"calc"` or one of the CSS math function names). -/
structure Calc where
  expressions : List String
  operator : Option CalcOp
  fn : String
deriving DecidableEq, Repr

/-- `Calc.isTerm`: the node's operator is `+` or `-`. -/
def Calc.isTerm (c : Calc) : Bool :=
  match c.operator with
  | some .plus => true
  | some .minus => true
  | _ => false

/-- Whether an operator value is `*` or `/` (the test `Calc.isFactor`
applies to the node under construction, whose operator field is this
value). -/
def isFactorOp : Option CalcOp → Bool
  | some .times => true
  | some .divide => true
  | _ => false

/-- `Calc.isFactor`: the node's operator is `*` or `/`. -/
def Calc.isFactor (c : Calc) : Bool := isFactorOp c.operator

/-- `Calc.isFn`: the node's function name is not the generic `calc`
wrapper. -/
def Calc.isFn (c : Calc) : Bool := c.fn != "calc"

/-- `Calc.build` (private in the source): joins the stored operand strings
with `", "` when there is no operator, and with `" <op> "` otherwise. -/
def Calc.build (c : Calc) : String :=
  match c.operator with
  | none => joinSep ", " c.expressions
  | some op => joinSep (" " ++ op.symbol ++ " ") c.expressions

/-- `Calc.toString`: `fn(build())`. -/
def Calc.toString (c : Calc) : String := c.fn ++ "(" ++ c.build ++ ")"

/-- `Operand` from the source: `string | number | Calc`. -/
inductive Operand where
  | num (n : Int)
  | str (s : String)
  | expr (c : Calc)
deriving DecidableEq, Repr

/-- JavaScript `e.toString()` on an operand (a `Calc` operand renders via
its own `toString`). -/
def Operand.toString : Operand → String
  | .num n => intToString n
  | .str s => s
  | .expr c => c.toString

/-- The operand-coercion performed inside the `Calc` constructor: given
the operator and function name of the node being constructed (`this`),
render one supplied operand to its stored string.  Mirrors the `map` body
of the constructor in `timing.ts`. -/
def coerceOperand (operator : Option CalcOp) (fn : String) (e : Operand) : String :=
  match e with
  | .expr c =>
      if isFactorOp operator && c.isTerm then "(" ++ c.build ++ ")"
      else if fn != "calc" || c.isFn then c.toString
      else c.build
  | .num n => Operand.toString (.num n)
  | .str s => Operand.toString (.str s)

/-- The `Calc` constructor: coerce each operand and store the results
together with the operator and function name. -/
def Calc.make (exprs : List Operand) (operator : Option CalcOp)
    (fn : String := "calc") : Calc :=
  ⟨exprs.map (coerceOperand operator fn), operator, fn⟩

/-- `Calc.add`. -/
def Calc.add (c : Calc) (operands : List Operand) : Calc :=
  Calc.make (Operand.expr c :: operands) (some .plus)

/-- `Calc.subtract`. -/
def Calc.subtract (c : Calc) (operands : List Operand) : Calc :=
  Calc.make (Operand.expr c :: operands) (some .minus)

/-- `Calc.multiply`. -/
def Calc.multiply (c : Calc) (operands : List Operand) : Calc :=
  Calc.make (Operand.expr c :: operands) (some .times)

/-- `Calc.divide`. -/
def Calc.divide (c : Calc) (operands : List Operand) : Calc :=
  Calc.make (Operand.expr c :: operands) (some .divide)

/-- `Calc.negate`: `new Calc([-1, this], '*')`. -/
def Calc.negate (c : Calc) : Calc :=
  Calc.make [Operand.num (-1), Operand.expr c] (some .times)

/-- `Calc.min` (method). -/
def Calc.min (c : Calc) (operands : List Operand) : Calc :=
  Calc.make (Operand.expr c :: operands) none "min"

/-- `Calc.max` (method). -/
def Calc.max (c : Calc) (operands : List Operand) : Calc :=
  Calc.make (Operand.expr c :: operands) none "max"

/-- `Calc.clamp` (method). -/
def Calc.clamp (c : Calc) (lo hi : Operand) : Calc :=
  Calc.make [Operand.expr c, lo, hi] none "clamp"

/-- `Calc.pow` (method). -/
def Calc.pow (c : Calc) (exponent : Operand) : Calc :=
  Calc.make [Operand.expr c, exponent] none "pow"

/-- Free function `calc(x)` (`calc` is a Lean keyword, hence `calcOf`). -/
def calcOf (x : Operand) : Calc := Calc.make [x] none

/-- Free function `min(...operands)`. -/
def minOf (operands : List Operand) : Calc := Calc.make operands none "min"

/-- Free function `max(...operands)`. -/
def maxOf (operands : List Operand) : Calc := Calc.make operands none "max"

/-! ## Transform builder -/

/-- `coerceValue` from the transform module: the number literal `0`
(strict equality, so not the string `"0"`) renders as bare `"0"`; a value
whose `Number(...)` conversion is not NaN renders as that number followed
by the unit; otherwise the value's own string form passes through. -/
def coerceValue (value : Operand) (unit : String) : String :=
  if value = Operand.num 0 then "0"
  else
    match
      (match value with
       | .num n => some (JSNum.finite n 0)
       | .str s => jsNumber s
       | .expr c => jsNumber c.toString) with
    | none => value.toString
    | some v => v.render ++ unit

/-- `Transform`: an ordered list of already-rendered transform
fragments. -/
structure Transform where
  transforms : List String
deriving DecidableEq, Repr

/-- Append one rendered fragment, returning a new `Transform`. -/
def Transform.append (t : Transform) (fragment : String) : Transform :=
  ⟨t.transforms ++ [fragment]⟩

/-- `Transform.perspective`. -/
def Transform.perspective (t : Transform) (value : Operand) : Transform :=
  t.append ("perspective(" ++ coerceValue value "px" ++ ")")

/-- `Transform.rotate`. -/
def Transform.rotate (t : Transform) (value : Operand) : Transform :=
  t.append ("rotate(" ++ coerceValue value "deg" ++ ")")

/-- `Transform.rotateX`. -/
def Transform.rotateX (t : Transform) (value : Operand) : Transform :=
  t.append ("rotateX(" ++ coerceValue value "deg" ++ ")")

/-- `Transform.rotateY`. -/
def Transform.rotateY (t : Transform) (value : Operand) : Transform :=
  t.append ("rotateY(" ++ coerceValue value "deg" ++ ")")

/-- `Transform.rotateZ`. -/
def Transform.rotateZ (t : Transform) (value : Operand) : Transform :=
  t.append ("rotateZ(" ++ coerceValue value "deg" ++ ")")

/-- `Transform.rotate3d`. -/
def Transform.rotate3d (t : Transform) (x y z : Int) (angle : Operand) : Transform :=
  t.append ("rotate3d(" ++ intToString x ++ ", " ++ intToString y ++ ", "
    ++ intToString z ++ ", " ++ coerceValue angle "deg" ++ ")")

/-- `Transform.skew` (second argument defaults to `0` at call sites). -/
def Transform.skew (t : Transform) (x y : Operand) : Transform :=
  t.append ("skew(" ++ coerceValue x "deg" ++ ", " ++ coerceValue y "deg" ++ ")")

/-- `Transform.skewX`. -/
def Transform.skewX (t : Transform) (value : Operand) : Transform :=
  t.append ("skewX(" ++ coerceValue value "deg" ++ ")")

/-- `Transform.skewY`. -/
def Transform.skewY (t : Transform) (value : Operand) : Transform :=
  t.append ("skewY(" ++ coerceValue value "deg" ++ ")")

/-- `Transform.translate` (second argument defaults to `0` at call
sites). -/
def Transform.translate (t : Transform) (x y : Operand) : Transform :=
  t.append ("translate(" ++ coerceValue x "px" ++ ", " ++ coerceValue y "px" ++ ")")

/-- `Transform.translate3d`. -/
def Transform.translate3d (t : Transform) (x y z : Operand) : Transform :=
  t.append ("translate3d(" ++ coerceValue x "px" ++ ", " ++ coerceValue y "px"
    ++ ", " ++ coerceValue z "px" ++ ")")

/-- `Transform.translateX`. -/
def Transform.translateX (t : Transform) (value : Operand) : Transform :=
  t.append ("translateX(" ++ coerceValue value "px" ++ ")")

/-- `Transform.translateY`. -/
def Transform.translateY (t : Transform) (value : Operand) : Transform :=
  t.append ("translateY(" ++ coerceValue value "px" ++ ")")

/-- `Transform.translateZ`. -/
def Transform.translateZ (t : Transform) (value : Operand) : Transform :=
  t.append ("translateZ(" ++ coerceValue value "px" ++ ")")

/-- `Transform.scale`. -/
def Transform.scale (t : Transform) (x y : Operand) : Transform :=
  t.append ("scale(" ++ x.toString ++ ", " ++ y.toString ++ ")")

/-- `Transform.scaleX`. -/
def Transform.scaleX (t : Transform) (value : Int) : Transform :=
  t.append ("scaleX(" ++ intToString value ++ ")")

/-- `Transform.toString`: fragments joined with a single space. -/
def Transform.toString (t : Transform) : String := joinSep " " t.transforms

/-- Free function `transform()`: an empty builder. -/
def transform : Transform := ⟨[]⟩

/-! ## Time coercion (`types/util.ts`) -/

/-- `string | number`, the domain of `coerceToUnit` and the
duration/delay setters. -/
inductive JSValue where
  | num (n : Int)
  | str (s : String)
deriving DecidableEq, Repr

/-- JavaScript `toString` on a `string | number` value. -/
def JSValue.toString : JSValue → String
  | .num n => intToString n
  | .str s => s

/-- The `Number(...)` conversion of a `string | number` value. -/
def JSValue.toNumber : JSValue → Option JSNum
  | .num n => some (JSNum.finite n 0)
  | .str s => jsNumber s

/-- `coerceToUnit` from `types/util.ts`: NaN conversions fall back to the
raw value; anything else renders as the converted number followed by the
unit. -/
def coerceToUnit (value : JSValue) (unit : String) : String :=
  match value.toNumber with
  | none => value.toString
  | some v => v.render ++ unit

/-- `coerceToTime`: `coerceToUnit` with the default time unit `ms`. -/
def coerceToTime (value : JSValue) : String := coerceToUnit value "ms"

/-! ## Transition builder (`transition.ts`, csstype-based variant) -/

/-- `cubicBezier` from `functions/timing.ts`.  The source takes JS
numbers; they are modelled by their rendered decimal strings, since the
default configuration uses the fractional values 0.4 and 0.2 which are
outside the integer model. -/
def cubicBezier (p1 p2 p3 p4 : String) : String :=
  "cubic-bezier(" ++ p1 ++ ", " ++ p2 ++ ", " ++ p3 ++ ", " ++ p4 ++ ")"

/-- `TransitionConfig`. -/
structure TransitionConfig where
  transitionDuration : String
  transitionTimingFunction : String
  transitionDelay : Option String
deriving DecidableEq, Repr

/-- The initial value of the module-level mutable `defaultConfig`
record. -/
def transitionInitialDefaults : TransitionConfig :=
  { transitionDuration := "300ms"
    transitionTimingFunction := cubicBezier "0.4" "0" "0.2" "1"
    transitionDelay := none }

/-- `Partial<TransitionConfig>`: each field is either absent (`none`) or
present with a value (for the already-optional delay field, possibly
present-with-undefined). -/
structure PartialTransitionConfig where
  transitionDuration : Option String := none
  transitionTimingFunction : Option String := none
  transitionDelay : Option (Option String) := none
deriving DecidableEq, Repr

/-- `transitionConfigDefaults(newConfig)`: `Object.assign` of the partial
record onto the current default record.  The process-wide mutable record
is modelled by explicit state passing: the function maps the old default
record to the new one. -/
def transitionConfigDefaults (newConfig : PartialTransitionConfig)
    (defaultConfig : TransitionConfig) : TransitionConfig :=
  { transitionDuration :=
      newConfig.transitionDuration.getD defaultConfig.transitionDuration
    transitionTimingFunction :=
      newConfig.transitionTimingFunction.getD defaultConfig.transitionTimingFunction
    transitionDelay :=
      newConfig.transitionDelay.getD defaultConfig.transitionDelay }

/-- `Transition`: tracked property names, the configuration record (a
copy of the defaults taken at construction time), and the list of
builders composed via `and`. -/
inductive Transition where
  | mk (properties : List String) (configuration : TransitionConfig)
      (otherTransitions : List Transition)

/-- The tracked property names. -/
def Transition.properties : Transition → List String
  | .mk p _ _ => p

/-- The stored configuration record. -/
def Transition.configuration : Transition → TransitionConfig
  | .mk _ c _ => c

/-- The composed builders. -/
def Transition.otherTransitions : Transition → List Transition
  | .mk _ _ o => o

/-- `transition(...properties)`: the factory copies the current default
configuration record (passed explicitly here) into the new builder. -/
def transition (properties : List String) (defaultConfig : TransitionConfig) :
    Transition :=
  .mk properties defaultConfig []

/-- `Transition.duration`. -/
def Transition.duration : Transition → JSValue → Transition
  | .mk props cfg others, d =>
      .mk props { cfg with transitionDuration := coerceToTime d } others

/-- `Transition.timingFunction`. -/
def Transition.timingFunction : Transition → String → Transition
  | .mk props cfg others, tf =>
      .mk props { cfg with transitionTimingFunction := tf } others

/-- `Transition.delay`. -/
def Transition.delay : Transition → JSValue → Transition
  | .mk props cfg others, d =>
      .mk props { cfg with transitionDelay := some (coerceToTime d) } others

/-- `Transition.and`. -/
def Transition.and : Transition → List Transition → Transition
  | .mk props cfg others, ts => .mk props cfg (others ++ ts)

/-- JavaScript `[...].filter(Boolean)` on a list of possibly-undefined
strings: drops `undefined` (`none`) and the empty string (falsy). -/
def filterTruthy (xs : List (Option String)) : List String :=
  (xs.filterMap id).filter (fun s => s ≠ "")

/-- The `cfg` string of `Transition.toString`: the truthy configuration
fields joined with a space. -/
def transitionCfgString (c : TransitionConfig) : String :=
  joinSep " "
    (filterTruthy [some c.transitionDuration, some c.transitionTimingFunction,
      c.transitionDelay])

mutual

/-- `Transition.toString`: one `property cfg` pair per tracked property,
comma-joined, then each composed builder's own string, all
comma-joined. -/
def Transition.toString : Transition → String
  | .mk props cfg others =>
      joinSep ", "
        (joinSep ", " (props.map (fun p => p ++ " " ++ transitionCfgString cfg))
          :: Transition.listToString others)

/-- The rendered strings of a list of transitions. -/
def Transition.listToString : List Transition → List String
  | [] => []
  | t :: ts => Transition.toString t :: Transition.listToString ts

end

/-! ## Animation builder (`animation/animation.ts`) -/

/-- `AnimationConfig`.  The iteration count may be a number or a string
in the source, hence `Option JSValue`; the remaining optional fields are
strings. -/
structure AnimationConfig where
  animationDuration : String
  animationTimingFunction : String
  animationDelay : Option String
  animationIterationCount : Option JSValue
  animationDirection : Option String
  animationFillMode : Option String
  animationPlayState : Option String
deriving DecidableEq, Repr

/-- The initial value of the module-level mutable `config` record. -/
def animationInitialDefaults : AnimationConfig :=
  { animationDuration := "300ms"
    animationTimingFunction := "cubic-bezier(0.4, 0, 0.2, 1)"
    animationDelay := none
    animationIterationCount := none
    animationDirection := none
    animationFillMode := none
    animationPlayState := none }

/-- `Partial<AnimationConfig>`. -/
structure PartialAnimationConfig where
  animationDuration : Option String := none
  animationTimingFunction : Option String := none
  animationDelay : Option (Option String) := none
  animationIterationCount : Option (Option JSValue) := none
  animationDirection : Option (Option String) := none
  animationFillMode : Option (Option String) := none
  animationPlayState : Option (Option String) := none
deriving DecidableEq, Repr

/-- `animationConfigDefaults(newConfig)`: `Object.assign` onto the
process-wide default record, modelled by explicit state passing. -/
def animationConfigDefaults (newConfig : PartialAnimationConfig)
    (config : AnimationConfig) : AnimationConfig :=
  { animationDuration :=
      newConfig.animationDuration.getD config.animationDuration
    animationTimingFunction :=
      newConfig.animationTimingFunction.getD config.animationTimingFunction
    animationDelay := newConfig.animationDelay.getD config.animationDelay
    animationIterationCount :=
      newConfig.animationIterationCount.getD config.animationIterationCount
    animationDirection :=
      newConfig.animationDirection.getD config.animationDirection
    animationFillMode := newConfig.animationFillMode.getD config.animationFillMode
    animationPlayState := newConfig.animationPlayState.getD config.animationPlayState }

/-- `Animation`: tracked keyframe names, the configuration record copied
at construction time, and the builders composed via `and`. -/
inductive Animation where
  | mk (keyframes : List String) (configuration : AnimationConfig)
      (otherAnimations : List Animation)

/-- The tracked keyframe names. -/
def Animation.keyframes : Animation → List String
  | .mk k _ _ => k

/-- The stored configuration record. -/
def Animation.configuration : Animation → AnimationConfig
  | .mk _ c _ => c

/-- The composed builders. -/
def Animation.otherAnimations : Animation → List Animation
  | .mk _ _ o => o

/-- `animation(...keyframes)`: the factory copies the current default
configuration record (passed explicitly here). -/
def animation (keyframes : List String) (config : AnimationConfig) : Animation :=
  .mk keyframes config []

/-- `Animation.duration`. -/
def Animation.duration : Animation → JSValue → Animation
  | .mk kfs cfg others, d =>
      .mk kfs { cfg with animationDuration := coerceToTime d } others

/-- `Animation.timingFunction`. -/
def Animation.timingFunction : Animation → String → Animation
  | .mk kfs cfg others, tf =>
      .mk kfs { cfg with animationTimingFunction := tf } others

/-- `Animation.delay`. -/
def Animation.delay : Animation → JSValue → Animation
  | .mk kfs cfg others, d =>
      .mk kfs { cfg with animationDelay := some (coerceToTime d) } others

/-- `Animation.iterationCount`. -/
def Animation.iterationCount : Animation → JSValue → Animation
  | .mk kfs cfg others, n =>
      .mk kfs { cfg with animationIterationCount := some n } others

/-- `Animation.and`. -/
def Animation.and : Animation → List Animation → Animation
  | .mk kfs cfg others, as => .mk kfs cfg (others ++ as)

/-- Truthiness of a `string | number` value: `0` and `""` are falsy. -/
def JSValue.truthy : JSValue → Bool
  | .num n => n != 0
  | .str s => s != ""

/-- The `cfg` string of `Animation.toString`: the truthy configuration
fields joined with a space. -/
def animationCfgString (c : AnimationConfig) : String :=
  joinSep " "
    ((([some (JSValue.str c.animationDuration),
        some (JSValue.str c.animationTimingFunction),
        c.animationDelay.map JSValue.str,
        c.animationIterationCount,
        c.animationDirection.map JSValue.str,
        c.animationFillMode.map JSValue.str,
        c.animationPlayState.map JSValue.str].filterMap id).filter
      JSValue.truthy).map JSValue.toString)

mutual

/-- `Animation.toString`: one `cfg keyframe` pair per tracked keyframe
(the configuration string comes first in the source), comma-joined, then
each composed builder's own string, all comma-joined. -/
def Animation.toString : Animation → String
  | .mk kfs cfg others =>
      joinSep ", "
        (joinSep ", " (kfs.map (fun k => animationCfgString cfg ++ " " ++ k))
          :: Animation.listToString others)

/-- The rendered strings of a list of animations. -/
def Animation.listToString : List Animation → List String
  | [] => []
  | a :: as => Animation.toString a :: Animation.listToString as

end

/-! ## Helper lemmas -/

/-- Joining a nonempty joined list onto further elements flattens into a
single join: `[xs.join(sep)].concat(ys).join(sep) = (xs ++ ys).join(sep)`
when `xs` is nonempty. -/
theorem joinSep_flatten (sep x : String) (xs ys : List String) :
    joinSep sep (joinSep sep (x :: xs) :: ys) = joinSep sep ((x :: xs) ++ ys) := by
  simp [joinSep, List.foldl_append]

/-! ## Claim theorems -/

/-- C1: in any node constructed via `multiply`, `divide` or `negate`
(operator `*` or `/`), every supplied operand that is itself an expression
node with operator `+` or `-` is stored as its bare `build()` string
wrapped in parentheses, and the stored operand list is exactly the
coercion map of the supplied operands. -/
theorem C1_factor_wraps_terms (recv c : Calc) (ops : List Operand)
    (h : c.isTerm = true) :
    coerceOperand (some CalcOp.times) "calc" (Operand.expr c) = "(" ++ c.build ++ ")"
    ∧ coerceOperand (some CalcOp.divide) "calc" (Operand.expr c) = "(" ++ c.build ++ ")"
    ∧ (recv.multiply ops).expressions
        = (Operand.expr recv :: ops).map (coerceOperand (some CalcOp.times) "calc")
    ∧ (recv.divide ops).expressions
        = (Operand.expr recv :: ops).map (coerceOperand (some CalcOp.divide) "calc")
    ∧ c.negate.expressions = ["-1", "(" ++ c.build ++ ")"] := by
  refine ⟨?_, ?_, rfl, rfl, ?_⟩
  · simp [coerceOperand, isFactorOp, h]
  · simp [coerceOperand, isFactorOp, h]
  · simp [coerceOperand, isFactorOp, h, Calc.negate, Calc.make, Operand.toString,
      intToString]
    decide

/-- C1 witness: `calc(1).add(2)` is an additive node, and using it as a
`multiply` operand stores `"(1 + 2)"`. -/
theorem C1_factor_wraps_terms_witness :
    Calc.isTerm ((calcOf (Operand.num 1)).add [Operand.num 2]) = true
    ∧ coerceOperand (some CalcOp.times) "calc"
        (Operand.expr ((calcOf (Operand.num 1)).add [Operand.num 2]))
      = "(" ++ Calc.build ((calcOf (Operand.num 1)).add [Operand.num 2]) ++ ")" :=
  ⟨by decide,
   (C1_factor_wraps_terms (calcOf (Operand.num 1))
      ((calcOf (Operand.num 1)).add [Operand.num 2]) [] (by decide)).1⟩

/-- C2: a named-function operand (function name other than `calc`, no
operator) is always stored via its full `toString()`; a named-function
constructing node stores every operand via `toString()`; the `min` method
stores the coercion map with the receiver first; and the two concrete
renderings from the claim hold. -/
theorem C2_named_function_operands (op : Option CalcOp) (fnOuter : String)
    (c recv : Calc) (ops : List Operand)
    (hfn : c.fn ≠ "calc") (hop : c.operator = none) :
    coerceOperand op fnOuter (Operand.expr c) = c.toString
    ∧ (fnOuter ≠ "calc" → ∀ e : Operand, coerceOperand none fnOuter e = e.toString)
    ∧ (recv.min ops).expressions
        = (Operand.expr recv :: ops).map (coerceOperand none "min")
    ∧ ((minOf [Operand.num 1, Operand.num 2, Operand.num 3]).add [Operand.num 4]).toString
        = "calc(min(1, 2, 3) + 4)"
    ∧ (((calcOf (Operand.num 4)).add [Operand.num 3]).min
        [Operand.num 2, Operand.num 3]).toString
        = "min(calc(4 + 3), 2, 3)"
    ∧ c.toString ≠ c.build := by
  refine ⟨?_, ?_, rfl, by decide, by decide, ?_⟩
  · simp [coerceOperand, Calc.isTerm, hop, Calc.isFn, hfn]
  · intro h e
    cases e <;> simp [coerceOperand, isFactorOp, Operand.toString, h]
  · intro heq
    have hlen := congrArg String.length heq
    have hp : "(".length = 1 := rfl
    have hq : ")".length = 1 := rfl
    simp [Calc.toString, String.length_append, hp, hq] at hlen
    omega

/-- C2 witness: `min(1, 2, 3)` is a named-function node; used as an
operand to `add` it is stored as its full `toString()`. -/
theorem C2_named_function_operands_witness :
    Calc.fn (minOf [Operand.num 1, Operand.num 2, Operand.num 3]) ≠ "calc"
    ∧ Calc.operator (minOf [Operand.num 1, Operand.num 2, Operand.num 3]) = none
    ∧ coerceOperand (some CalcOp.plus) "calc"
        (Operand.expr (minOf [Operand.num 1, Operand.num 2, Operand.num 3]))
      = Calc.toString (minOf [Operand.num 1, Operand.num 2, Operand.num 3]) :=
  ⟨by decide, by decide,
   (C2_named_function_operands (some CalcOp.plus) "calc"
      (minOf [Operand.num 1, Operand.num 2, Operand.num 3])
      (calcOf (Operand.num 1)) [] (by decide) (by decide)).1⟩

/-- C3: an expression-node operand of a generic-wrapper node contributes
its bare `build()` string whenever it is not an additive node in a
multiplicative context and not a named-function node, and chains of the
same operator therefore render as one flat operand list. -/
theorem C3_same_operator_flattening :
    (∀ (op : Option CalcOp) (c : Calc), c.fn = "calc" →
        ¬(isFactorOp op = true ∧ c.isTerm = true) →
        coerceOperand op "calc" (Operand.expr c) = c.build)
    ∧ (((calcOf (Operand.num 1)).add [Operand.num 2]).add [Operand.num 3]).toString
        = "calc(1 + 2 + 3)"
    ∧ (((calcOf (Operand.num 1)).add [Operand.num 2]).add [Operand.num 3]).toString
        ≠ "calc(calc(1 + 2) + 3)" := by
  refine ⟨?_, by decide, by decide⟩
  intro op c hfn hnot
  cases hF : isFactorOp op <;> cases hT : c.isTerm <;>
    simp_all [coerceOperand, Calc.isFn]

/-- C3 witness: `calc(1).add(2)` is a generic additive node; as an operand
of a further `add` it contributes its bare `build()` string `"1 + 2"`. -/
theorem C3_same_operator_flattening_witness :
    Calc.fn ((calcOf (Operand.num 1)).add [Operand.num 2]) = "calc"
    ∧ coerceOperand (some CalcOp.plus) "calc"
        (Operand.expr ((calcOf (Operand.num 1)).add [Operand.num 2]))
      = Calc.build ((calcOf (Operand.num 1)).add [Operand.num 2]) :=
  ⟨by decide,
   C3_same_operator_flattening.1 (some CalcOp.plus)
     ((calcOf (Operand.num 1)).add [Operand.num 2]) (by decide) (by decide)⟩

/-- C5: each arithmetic method stores the coercion map of
`[receiver, ...operands]` in exactly the supplied order with the receiver
first, and `negate` is the construction `new Calc([-1, this], '*')`. -/
theorem C5_operand_order (recv : Calc) (ops : List Operand) :
    (recv.add ops).expressions
        = (Operand.expr recv :: ops).map (coerceOperand (some CalcOp.plus) "calc")
    ∧ (recv.subtract ops).expressions
        = (Operand.expr recv :: ops).map (coerceOperand (some CalcOp.minus) "calc")
    ∧ (recv.multiply ops).expressions
        = (Operand.expr recv :: ops).map (coerceOperand (some CalcOp.times) "calc")
    ∧ (recv.divide ops).expressions
        = (Operand.expr recv :: ops).map (coerceOperand (some CalcOp.divide) "calc")
    ∧ recv.negate
        = Calc.make [Operand.num (-1), Operand.expr recv] (some CalcOp.times) "calc"
    ∧ (recv.add ops).operator = some CalcOp.plus
    ∧ (recv.add ops).fn = "calc" :=
  ⟨rfl, rfl, rfl, rfl, rfl, rfl, rfl⟩

/-- C9: an arithmetic method called with zero operands produces a node
whose rendering is the generic wrapper around the single coerced receiver
text, with no operator appearing; in particular
`calc(1).add().toString() = "calc(1)"` and
`calc(1).add(2).multiply().toString() = "calc((1 + 2))"`. -/
theorem C9_zero_operand_arithmetic (c : Calc) :
    (c.add []).toString
        = "calc(" ++ coerceOperand (some CalcOp.plus) "calc" (Operand.expr c) ++ ")"
    ∧ (c.subtract []).toString
        = "calc(" ++ coerceOperand (some CalcOp.minus) "calc" (Operand.expr c) ++ ")"
    ∧ (c.multiply []).toString
        = "calc(" ++ coerceOperand (some CalcOp.times) "calc" (Operand.expr c) ++ ")"
    ∧ (c.divide []).toString
        = "calc(" ++ coerceOperand (some CalcOp.divide) "calc" (Operand.expr c) ++ ")"
    ∧ ((calcOf (Operand.num 1)).add []).toString = "calc(1)"
    ∧ (((calcOf (Operand.num 1)).add [Operand.num 2]).multiply []).toString
        = "calc((1 + 2))" := by
  refine ⟨?_, ?_, ?_, ?_, by decide, by decide⟩ <;>
    simp [Calc.add, Calc.subtract, Calc.multiply, Calc.divide, Calc.make,
      Calc.toString, Calc.build, joinSep]

/-- C6: transform unit coercion — the number literal `0` renders bare, a
value whose `Number(...)` conversion succeeds renders as that number's
JavaScript string form with the unit suffix appended, a value whose
conversion is NaN passes through unchanged; with the claim's three
`translateX` scenarios and a decimal-string and an angle scenario. -/
theorem C6_transform_unit_coercion :
    (∀ unit : String, coerceValue (Operand.num 0) unit = "0")
    ∧ (∀ (unit : String) (n : Int), n ≠ 0 →
        coerceValue (Operand.num n) unit = (JSNum.finite n 0).render ++ unit)
    ∧ (∀ (unit s : String) (v : JSNum), jsNumber s = some v →
        coerceValue (Operand.str s) unit = v.render ++ unit)
    ∧ (∀ unit s : String, jsNumber s = none → coerceValue (Operand.str s) unit = s)
    ∧ (transform.translateX (Operand.num 10)).toString = "translateX(10px)"
    ∧ (transform.translateX (Operand.num 0)).toString = "translateX(0)"
    ∧ (transform.translateX (Operand.str "var(--x)")).toString
        = "translateX(var(--x))"
    ∧ (transform.translateX (Operand.str "2.5")).toString = "translateX(2.5px)"
    ∧ (transform.rotate (Operand.num 45)).toString = "rotate(45deg)" := by
  refine ⟨?_, ?_, ?_, ?_, by decide, by decide, by decide, by decide, by decide⟩
  · intro unit; simp [coerceValue]
  · intro unit n hn; simp [coerceValue, hn]
  · intro unit s v h; simp [coerceValue, h]
  · intro unit s h; simp [coerceValue, h, Operand.toString]

/-- C6 witness: `"1.5"` converts to the finite number `1.5` and renders
with the `px` suffix, while `"var(--x)"` is NaN and passes through. -/
theorem C6_transform_unit_coercion_witness :
    jsNumber "1.5" = some (JSNum.finite 15 (-1))
    ∧ coerceValue (Operand.str "1.5") "px" = (JSNum.finite 15 (-1)).render ++ "px"
    ∧ jsNumber "var(--x)" = none
    ∧ coerceValue (Operand.str "var(--x)") "px" = "var(--x)" :=
  ⟨by decide,
   C6_transform_unit_coercion.2.2.1 "px" "1.5" (JSNum.finite 15 (-1)) (by decide),
   by decide,
   C6_transform_unit_coercion.2.2.2.1 "px" "var(--x)" (by decide)⟩

/-- C10: only the number `0` (strict equality) renders bare; the string
`"0"` converts to the number `0` and receives the unit suffix, so
`translateX("0")` renders `"translateX(0px)"` while `translateX(0)`
renders `"translateX(0)"`. -/
theorem C10_strict_zero_equality :
    (transform.translateX (Operand.str "0")).toString = "translateX(0px)"
    ∧ (transform.translateX (Operand.num 0)).toString = "translateX(0)"
    ∧ (∀ unit : String, coerceValue (Operand.str "0") unit = "0" ++ unit)
    ∧ (∀ unit : String, coerceValue (Operand.num 0) unit = "0") := by
  have h0 : jsNumber "0" = some (JSNum.finite 0 0) := by decide
  have h1 : (JSNum.finite 0 0).render = "0" := by decide
  refine ⟨by decide, by decide, ?_, ?_⟩
  · intro unit; simp [coerceValue, h0, h1]
  · intro unit; simp [coerceValue]

/-- C7: duration/delay coercion on the transition and animation builders
— a number is stored as its JavaScript string form followed by `ms`, a
string whose `Number(...)` conversion succeeds (including decimal and
negative strings such as `"1.5"` and `"-5"`) is stored as that number's
string form followed by `ms`, and a string whose conversion is NaN is
stored unchanged. -/
theorem C7_time_coercion (t : Transition) (a : Animation) :
    (∀ n : Int, coerceToTime (JSValue.num n) = (JSNum.finite n 0).render ++ "ms")
    ∧ (∀ (s : String) (v : JSNum), jsNumber s = some v →
        coerceToTime (JSValue.str s) = v.render ++ "ms")
    ∧ (∀ s : String, jsNumber s = none → coerceToTime (JSValue.str s) = s)
    ∧ coerceToTime (JSValue.str "-5") = "-5ms"
    ∧ coerceToTime (JSValue.str "1.5") = "1.5ms"
    ∧ coerceToTime (JSValue.str "-2.75") = "-2.75ms"
    ∧ coerceToTime (JSValue.num 300) = "300ms"
    ∧ coerceToTime (JSValue.str "1s") = "1s"
    ∧ (∀ d, (t.duration d).configuration.transitionDuration = coerceToTime d)
    ∧ (∀ d, (t.delay d).configuration.transitionDelay = some (coerceToTime d))
    ∧ (∀ d, (a.duration d).configuration.animationDuration = coerceToTime d)
    ∧ (∀ d, (a.delay d).configuration.animationDelay = some (coerceToTime d)) := by
  refine ⟨?_, ?_, ?_, by decide, by decide, by decide, by decide, by decide,
    ?_, ?_, ?_, ?_⟩
  · intro n; simp [coerceToTime, coerceToUnit, JSValue.toNumber]
  · intro s v h; simp [coerceToTime, coerceToUnit, JSValue.toNumber, h]
  · intro s h; simp [coerceToTime, coerceToUnit, JSValue.toNumber, h, JSValue.toString]
  · intro d; cases t; rfl
  · intro d; cases t; rfl
  · intro d; cases a; rfl
  · intro d; cases a; rfl

/-- C7 witness: the decimal string `"1.5"` converts to the finite number
`1.5` and is stored as `"1.5ms"`, while `"1s"` is NaN and is stored
unchanged. -/
theorem C7_time_coercion_witness :
    jsNumber "1.5" = some (JSNum.finite 15 (-1))
    ∧ coerceToTime (JSValue.str "1.5") = (JSNum.finite 15 (-1)).render ++ "ms"
    ∧ jsNumber "1s" = none
    ∧ coerceToTime (JSValue.str "1s") = "1s" :=
  ⟨by decide,
   (C7_time_coercion (transition ["opacity"] transitionInitialDefaults)
      (animation ["fade"] animationInitialDefaults)).2.1 "1.5"
     (JSNum.finite 15 (-1)) (by decide),
   by decide,
   (C7_time_coercion (transition ["opacity"] transitionInitialDefaults)
      (animation ["fade"] animationInitialDefaults)).2.2.1 "1s" (by decide)⟩

/-- C8: the override functions merge the supplied partial record
field-by-field into the default record; every builder copies the default
record at construction time, so a builder constructed from the
pre-override record keeps and renders exactly that record, while a
builder constructed from the post-override record carries the merged
one. -/
theorem C8_default_config_override (d : TransitionConfig)
    (p : PartialTransitionConfig) (props : List String) (ad : AnimationConfig)
    (ap : PartialAnimationConfig) (kfs : List String) :
    (transition props d).configuration = d
    ∧ (animation kfs ad).configuration = ad
    ∧ (transitionConfigDefaults p d).transitionDuration
        = p.transitionDuration.getD d.transitionDuration
    ∧ (transitionConfigDefaults p d).transitionTimingFunction
        = p.transitionTimingFunction.getD d.transitionTimingFunction
    ∧ (transitionConfigDefaults p d).transitionDelay
        = p.transitionDelay.getD d.transitionDelay
    ∧ (animationConfigDefaults ap ad).animationDuration
        = ap.animationDuration.getD ad.animationDuration
    ∧ (animationConfigDefaults ap ad).animationTimingFunction
        = ap.animationTimingFunction.getD ad.animationTimingFunction
    ∧ (animationConfigDefaults ap ad).animationDelay
        = ap.animationDelay.getD ad.animationDelay
    ∧ (animationConfigDefaults ap ad).animationIterationCount
        = ap.animationIterationCount.getD ad.animationIterationCount
    ∧ (animationConfigDefaults ap ad).animationDirection
        = ap.animationDirection.getD ad.animationDirection
    ∧ (animationConfigDefaults ap ad).animationFillMode
        = ap.animationFillMode.getD ad.animationFillMode
    ∧ (animationConfigDefaults ap ad).animationPlayState
        = ap.animationPlayState.getD ad.animationPlayState
    ∧ (transition props (transitionConfigDefaults p d)).configuration
        = transitionConfigDefaults p d
    ∧ (animation kfs (animationConfigDefaults ap ad)).configuration
        = animationConfigDefaults ap ad
    ∧ Transition.toString (transition props d)
        = joinSep ", "
            [joinSep ", " (props.map (fun q => q ++ " " ++ transitionCfgString d))]
    ∧ Animation.toString (animation kfs ad)
        = joinSep ", "
            [joinSep ", " (kfs.map (fun k => animationCfgString ad ++ " " ++ k))] := by
  refine ⟨rfl, rfl, rfl, rfl, rfl, rfl, rfl, rfl, rfl, rfl, rfl, rfl, rfl, rfl, ?_, ?_⟩
  · simp [transition, Transition.toString, Transition.listToString]
  · simp [animation, Animation.toString, Animation.listToString]

/-- C4 counterexample: the animation builder renders the configuration
fields first and the keyframe name last, so `animation("fade")` does not
render as `"fade <cfg>"` as the claim states for every builder family. -/
theorem C4_render_order_counterexample :
    Animation.toString (animation ["fade"] animationInitialDefaults)
      = "300ms cubic-bezier(0.4, 0, 0.2, 1) fade"
    ∧ Animation.toString (animation ["fade"] animationInitialDefaults)
      ≠ "fade 300ms cubic-bezier(0.4, 0, 0.2, 1)" := by
  constructor <;> decide

/-- C4 (amended): `toString()` renders one pair per tracked name — for a
transition the property name first followed by the configuration fields,
for an animation the configuration fields first followed by the keyframe
name — the pairs comma-joined, followed by the recursively rendered
string of each builder composed via `and(...)`, all comma-joined into one
flat list (provided at least one name is tracked). -/
theorem C4_render_order_amended (cfg : TransitionConfig) (acfg : AnimationConfig)
    (p k : String) (props kfs : List String) (others : List Transition)
    (aothers : List Animation) :
    Transition.toString (.mk (p :: props) cfg others)
      = joinSep ", "
          (((p :: props).map (fun q => q ++ " " ++ transitionCfgString cfg))
            ++ Transition.listToString others)
    ∧ Animation.toString (.mk (k :: kfs) acfg aothers)
      = joinSep ", "
          (((k :: kfs).map (fun q => animationCfgString acfg ++ " " ++ q))
            ++ Animation.listToString aothers) := by
  constructor
  · rw [Transition.toString, List.map_cons, ← joinSep_flatten]
  · rw [Animation.toString, List.map_cons, ← joinSep_flatten]

end css
